import Mathlib

/-!
A shallow embedding, in Lean 4, of the qdu_qcodes_drivers instrument drivers
(Stahl HV324, BlueFors log reader, Anritsu MS2830, SRS SG384, Tektronix
AFG31000, Andeen-Hagerling AH2500A, NF LI5660), together with theorems about
the behaviour of the embedded operations.

Modelling conventions used throughout:
* Python floats are modelled as exact rationals (`ℚ`); decimal formatting /
  `round(x, 6)` is modelled as rounding to the nearest multiple of `10⁻⁶`
  (Python rounds ties to even, the model rounds ties up; both stay within
  half an ulp, which is all the theorems use).
* A method that can raise returns `Except`; the error type enumerates the
  Python exception classes that matter for control flow.
* Transport I/O is modelled by explicit arguments: the outcome of each
  exchange (for code whose control flow depends only on success/failure) or
  the device's reply (for code that inspects it).
-/

namespace QduDrivers

/-! ## Stahl HV324 (`src/drivers/Stahl/HV324.py`) -/

/-- Rounding of a rational to 6 decimal places: the model of both Python's
`f"{x:.6f}"` fixed-point formatting and `round(x, 6)`. -/
def round6 (x : ℚ) : ℚ := (round (x * 1000000) : ℤ) / 1000000

/-- `StahlChannel._set_voltage`, encoding side: the raw code written to the
wire is `voltage / (2 * voltage_range) + 0.5`, formatted to 6 decimals. -/
def stahl_set_code (R v : ℚ) : ℚ := round6 (v / (2 * R) + 1 / 2)

/-- `StahlChannel._get_voltage`, decoding side: the reply code is mapped to
`round((raw - 0.5) * 2 * voltage_range, 6)`. -/
def stahl_get_voltage (R raw : ℚ) : ℚ := round6 ((raw - 1 / 2) * (2 * R))

/-- One quantization step of the Stahl voltage parameter: the voltage change
corresponding to one ulp (`10⁻⁶`) of the 6-decimal wire code. -/
def stahlQuantStep (R : ℚ) : ℚ := 2 * R / 1000000

/-- The single-control-character acknowledge reply
(`StahlChannel.acknowledge_reply = chr(6)`). -/
def acknowledge_reply : String := String.mk [Char.ofNat 6]

/-- Commands a `StahlChannel` sends over its transport. -/
inductive StahlCmd where
  | setVoltage (code : ℚ)
  deriving Repr, DecidableEq

/-- Errors surfaced by the embedded Stahl channel operations. -/
inductive StahlErr where
  | invalidValue
  deriving Repr, DecidableEq

/-- `StahlChannel._set_voltage` given the device's reply: sends the encoded
command, then compares the reply against `acknowledge_reply`; a mismatch is
only logged (the `Bool` component), the call always returns normally. -/
def stahl_set_voltage (R v : ℚ) (reply : String) :
    List StahlCmd × Bool × Except StahlErr Unit :=
  ([StahlCmd.setVoltage (stahl_set_code R v)],
   decide (reply ≠ acknowledge_reply),
   Except.ok ())

/-- The full `voltage(v)` set path: qcodes validates against
`Numbers(min_value=-10.00, max_value=10.00)` before calling the setter. -/
def stahl_voltage_set (R v : ℚ) (reply : String) :
    List StahlCmd × Bool × Except StahlErr Unit :=
  if -10 ≤ v ∧ v ≤ 10 then
    stahl_set_voltage R v reply
  else
    ([], false, Except.error StahlErr.invalidValue)

/-- The standing step/inter-delay configuration of the qcodes `voltage`
Parameter (`step` is optional in qcodes, `inter_delay` is a number). -/
structure RampConfig where
  step : Option ℚ
  inter_delay : ℚ
  deriving Repr, DecidableEq

/-- Transport-level failure during an exchange inside `ramp`. -/
inductive TransportErr where
  | timeout
  deriving Repr, DecidableEq

/-- `StahlChannel.ramp(ramp_to, step, delay)`, modelled by explicit state
passing of the Parameter's `(step, inter_delay)` configuration.  The three
`Except` arguments are the outcomes of the three transport phases of the
source, in order: the `DIS ... ramp` display exchange, the stepping walk
performed by `self.voltage(ramp_to)`, and the `DIS ... set` display
exchange.  The source saves the configuration, installs the ramp-specific
pair, runs the three phases, and restores the saved pair only after the
third phase — there is no `try/finally`, so an error in any phase
propagates with the configuration still set to the ramp-specific pair. -/
def stahl_ramp (cfg : RampConfig) (ramp_step delay : ℚ)
    (disIntent walk disDone : Except TransportErr Unit) :
    Except TransportErr Unit × RampConfig :=
  let saved_step := cfg.step
  let saved_inter_delay := cfg.inter_delay
  let installed : RampConfig := ⟨some ramp_step, delay⟩
  match disIntent with
  | Except.error e => (Except.error e, installed)
  | Except.ok _ =>
    match walk with
    | Except.error e => (Except.error e, installed)
    | Except.ok _ =>
      match disDone with
      | Except.error e => (Except.error e, installed)
      | Except.ok _ => (Except.ok (), ⟨saved_step, saved_inter_delay⟩)

/-- Rounding to 6 decimals moves a rational by at most half an ulp. -/
lemma abs_round6_sub_le (x : ℚ) : |round6 x - x| ≤ 1 / 2000000 := by
  have h := abs_sub_round (x * 1000000)
  have h6 : |round6 x - x| = |(round (x * 1000000) : ℚ) - x * 1000000| / 1000000 := by
    rw [round6]
    rw [show ((round (x * 1000000) : ℤ) : ℚ) / 1000000 - x
          = ((round (x * 1000000) : ℤ) - x * 1000000) / 1000000 by ring]
    rw [abs_div]
    norm_num
  rw [h6, abs_sub_comm]
  rw [div_le_div_iff₀ (by norm_num) (by norm_num)]
  nlinarith [h]

/-- C1: the claim asserts the ramp restores the Parameter's step/delay on
*every* exit path.  The embedded `stahl_ramp` restores it on the normal
path (first conjunct), but when the first display exchange raises, the call
propagates the error with the configuration still at the ramp-specific
values `(some 0.1, 0.05)` instead of the saved `(none, 0)` (second and
third conjuncts): the restore code is unreachable on the error path. -/
theorem stahl_ramp_config_not_restored_on_error :
    (∀ (cfg : RampConfig) (r d : ℚ),
      stahl_ramp cfg r d (Except.ok ()) (Except.ok ()) (Except.ok ())
        = (Except.ok (), cfg)) ∧
    stahl_ramp ⟨none, 0⟩ (1 / 10) (1 / 20)
        (Except.error TransportErr.timeout) (Except.ok ()) (Except.ok ())
      = (Except.error TransportErr.timeout, ⟨some (1 / 10), 1 / 20⟩) ∧
    (⟨some (1 / 10), 1 / 20⟩ : RampConfig) ≠ ⟨none, 0⟩ := by
  refine ⟨fun cfg r d => ?_, rfl, by decide⟩
  cases cfg
  rfl

/-- C5: the set-side encoding (`v/(2*range)+0.5` formatted to 6 decimals)
and the get-side decoding (`round((raw-0.5)*2*range, 6)`) are mutually
inverse up to the fixed-point precision: with a transport that echoes the
written raw code back verbatim, `set(v)` followed by `get()` returns a
value within one quantization step (`2*range*10⁻⁶`) of `v`, for every
range of at least one half volt (every parseable device range). -/
theorem stahl_set_get_within_one_step (R v : ℚ) (hR : 1 / 2 ≤ R) :
    |stahl_get_voltage R (stahl_set_code R v) - v| ≤ stahlQuantStep R := by
  have hR0 : (0 : ℚ) < R := lt_of_lt_of_le (by norm_num) hR
  set c : ℚ := v / (2 * R) + 1 / 2 with hc
  have h1 : |stahl_set_code R v - c| ≤ 1 / 2000000 := abs_round6_sub_le c
  set d0 : ℚ := (stahl_set_code R v - 1 / 2) * (2 * R) with hd0
  have hval : d0 - v = (stahl_set_code R v - c) * (2 * R) := by
    rw [hd0, hc]
    field_simp
    ring
  have h2 : |d0 - v| ≤ (1 / 2000000) * (2 * R) := by
    rw [hval, abs_mul, abs_of_pos (by positivity : (0 : ℚ) < 2 * R)]
    exact mul_le_mul_of_nonneg_right h1 (by positivity)
  have h3 : |stahl_get_voltage R (stahl_set_code R v) - d0| ≤ 1 / 2000000 := by
    rw [stahl_get_voltage, hd0]
    exact abs_round6_sub_le _
  have h4 : |stahl_get_voltage R (stahl_set_code R v) - v|
      ≤ (1 / 2000000) * (2 * R) + 1 / 2000000 := by
    calc |stahl_get_voltage R (stahl_set_code R v) - v|
        = |(stahl_get_voltage R (stahl_set_code R v) - d0) + (d0 - v)| := by
          ring_nf
      _ ≤ |stahl_get_voltage R (stahl_set_code R v) - d0| + |d0 - v| :=
          abs_add _ _
      _ ≤ 1 / 2000000 + (1 / 2000000) * (2 * R) := add_le_add h3 h2
      _ = (1 / 2000000) * (2 * R) + 1 / 2000000 := by ring
  calc |stahl_get_voltage R (stahl_set_code R v) - v|
      ≤ (1 / 2000000) * (2 * R) + 1 / 2000000 := h4
    _ ≤ stahlQuantStep R := by
        rw [stahlQuantStep]
        nlinarith [hR]

/-- Witness for C5 at the concrete range 500 V and requested value 3.7 V. -/
theorem stahl_set_get_within_one_step_witness :
    |stahl_get_voltage 500 (stahl_set_code 500 (37 / 10)) - 37 / 10|
      ≤ stahlQuantStep 500 :=
  stahl_set_get_within_one_step 500 (37 / 10) (by norm_num)

/-- C8: for every in-range voltage value, `_set_voltage` sends exactly one
command and returns normally whatever the device replies; the acknowledge
mismatch is surfaced only as the logged-warning flag, which is set exactly
when the reply differs from the single acknowledge control character. -/
theorem stahl_set_voltage_ack_mismatch_is_warning (R v : ℚ) (reply : String)
    (hlo : -10 ≤ v) (hhi : v ≤ 10) :
    stahl_voltage_set R v reply
      = ([StahlCmd.setVoltage (stahl_set_code R v)],
         decide (reply ≠ acknowledge_reply),
         Except.ok ()) := by
  rw [stahl_voltage_set, if_pos ⟨hlo, hhi⟩]
  rfl

/-- Witness for C8: value 1 V, range 500 V, a non-acknowledge reply "X":
the call returns normally with the warning flag set. -/
theorem stahl_set_voltage_ack_mismatch_is_warning_witness :
    stahl_voltage_set 500 1 "X"
      = ([StahlCmd.setVoltage (stahl_set_code 500 1)], true, Except.ok ()) := by
  have h := stahl_set_voltage_ack_mismatch_is_warning 500 1 "X"
    (by norm_num) (by norm_num)
  rw [h]
  norm_num
  decide

/-! ## Anritsu MS2830 (`src/drivers/Anritsu/MS2830.py`) -/

/-- Write commands the MS2830 frequency setters can issue
(`self.write(...)`; queries issued via `get_cmd` are tracked separately in
the functions' results where needed). -/
inductive MsCmd where
  | writeStart (v : ℚ)
  deriving Repr, DecidableEq

/-- Errors raised by the MS2830 frequency setters. -/
inductive MsErr where
  | invalidValue
  deriving Repr, DecidableEq

/-- The live sweep-frequency state of the analyzer. -/
structure MsState where
  start : ℚ
  stop : ℚ
  deriving Repr, DecidableEq

/-- `MS2830._set_start(val)`: reads `stop` through the `stop` parameter,
raises `ValueError` when `val >= stop` before issuing any write; otherwise
writes `:SENSe:FREQuency:STARt val`, re-reads the device's applied start
value (the device applies `applied val`, it is authoritative), and sets the
warning flag when `abs(val - start) >= 1`.  The first component lists the
write commands issued on that path. -/
def ms_set_start (st : MsState) (applied : ℚ → ℚ) (v : ℚ) :
    List MsCmd × Except MsErr (MsState × Bool) :=
  let stop := st.stop
  if stop ≤ v then
    ([], Except.error MsErr.invalidValue)
  else
    let st' : MsState := ⟨applied v, st.stop⟩
    let start := st'.start
    ([MsCmd.writeStart v], Except.ok (st', decide (1 ≤ |v - start|)))

/-- `MS2830._set_stop(val)`: reads `start` through the `start` parameter and
raises `ValueError` when `val <= start`; on a valid value the method body
simply ends — no write command is ever issued and the device state is left
untouched. -/
def ms_set_stop (st : MsState) (v : ℚ) :
    List MsCmd × Except MsErr (MsState × Bool) :=
  let start := st.start
  if v ≤ start then
    ([], Except.error MsErr.invalidValue)
  else
    ([], Except.ok (st, false))

/-- C3: for every stop-frequency set with a value strictly above the current
start frequency, `_set_stop` validates and returns normally, but issues no
write command and leaves the device state unchanged. -/
theorem ms_set_stop_never_writes (st : MsState) (v : ℚ)
    (h : st.start < v) :
    ms_set_stop st v = ([], Except.ok (st, false)) := by
  rw [ms_set_stop, if_neg (not_le.mpr h)]

/-- Witness for C3 at start 9 kHz, stop request 12 kHz. -/
theorem ms_set_stop_never_writes_witness :
    ms_set_stop ⟨9000, 26500⟩ 12000 = ([], Except.ok (⟨9000, 26500⟩, false)) :=
  ms_set_stop_never_writes ⟨9000, 26500⟩ 12000 (by norm_num)

/-- C4: `_set_start` raises `ValueError` with no write when the requested
value is at or above the current stop frequency; otherwise it writes the
start command, re-reads the applied value, returns normally, and the
logged-warning flag is set whenever the drift exceeds one quantization
step (1 Hz) — in particular a drift strictly larger than one step is
reported as the warning flag, never as an exception. -/
theorem ms_set_start_validates_then_warns (st : MsState) (applied : ℚ → ℚ)
    (v : ℚ) :
    (st.stop ≤ v → ms_set_start st applied v
        = ([], Except.error MsErr.invalidValue)) ∧
    (v < st.stop → ms_set_start st applied v
        = ([MsCmd.writeStart v],
           Except.ok (⟨applied v, st.stop⟩, decide (1 ≤ |v - applied v|)))
      ∧ (1 < |v - applied v| → decide (1 ≤ |v - applied v|) = true)) := by
  constructor
  · intro h
    rw [ms_set_start, if_pos h]
  · intro h
    refine ⟨?_, fun hd => decide_eq_true (le_of_lt hd)⟩
    rw [ms_set_start, if_neg (not_le.mpr h)]

/-- Witness for C4: requesting a start of 250 Hz while stop is 200 Hz
raises the invalid-value error with no write issued. -/
theorem ms_set_start_validates_then_warns_witness :
    ms_set_start ⟨100, 200⟩ (fun x => x) 250
      = ([], Except.error MsErr.invalidValue) :=
  (ms_set_start_validates_then_warns ⟨100, 200⟩ (fun x => x) 250).1
    (by norm_num)

/-! ## Enum value mappings (qcodes `val_mapping` dictionaries)

Each dictionary literal passed as `val_mapping=` in the sources is embedded
as an association list from symbol to wire token, in declaration order.
qcodes encodes a symbol by dictionary lookup and decodes a token through
the inverted dictionary `{v: k for k, v in d.items()}` — on duplicate
tokens the later symbol wins, which the decoder models by scanning the
reversed list. -/

/-- Symbol-to-token encoding: Python dict lookup. -/
def vmEncode {τ : Type} [BEq τ] (m : List (String × τ)) (s : String) :
    Option τ :=
  (m.find? (fun p => p.1 == s)).map (fun p => p.2)

/-- Token-to-symbol decoding through the inverted dictionary (later entries
of the original dict overwrite earlier ones in the inverse). -/
def vmDecode {τ : Type} [BEq τ] (m : List (String × τ)) (t : τ) :
    Option String :=
  (m.reverse.find? (fun p => p.2 == t)).map (fun p => p.1)

/-- Decidable round-trip check: every declared symbol encodes to a token
that decodes back to the same symbol. -/
def vmRoundTrips {τ : Type} [BEq τ] (m : List (String × τ)) : Bool :=
  m.all (fun p => ((vmEncode m p.1).bind (vmDecode m)) == some p.1)

/-- `SG384` `noise_mode` mapping. -/
def sg384_noise_mode : List (String × ℕ) :=
  [("Mode 1", 0), ("Mode 2", 1)]

/-- `SG384` `enable_RF` mapping. -/
def sg384_enable_RF : List (String × ℕ) :=
  [("OFF", 0), ("ON", 1)]

/-- `SG384` `enable_LF` mapping. -/
def sg384_enable_LF : List (String × ℕ) :=
  [("OFF", 0), ("ON", 1)]

/-- `SG384` `modulation_coupling` mapping. -/
def sg384_modulation_coupling : List (String × ℕ) :=
  [("AC", 0), ("DC", 1)]

/-- `SG384` `modulation_function` mapping. -/
def sg384_modulation_function : List (String × ℕ) :=
  [("Sine", 0), ("Ramp", 1), ("Triangle", 2), ("Square", 3), ("Noise", 4),
   ("External", 5)]

/-- `SG384` `enable_modulation` mapping. -/
def sg384_enable_modulation : List (String × ℕ) :=
  [("OFF", 0), ("ON", 1)]

/-- `SG384` `modulation_type` mapping. -/
def sg384_modulation_type : List (String × ℕ) :=
  [("AM", 0), ("FM", 1), ("Phi", 2), ("Sweep", 3), ("Pulse", 4),
   ("Blank", 5), ("IQ", 6)]

/-- `AFGChannel` `type` (waveform shape) mapping. -/
def afg_type_mapping : List (String × String) :=
  [("SINE", "SIN"), ("SQUARE", "SQU"), ("PULSE", "PULS"), ("RAMP", "RAMP"),
   ("NOISE", "PRN"), ("DC", "DC"), ("SINC", "SINC"), ("GAUSS", "GAUS"),
   ("LORENTZ", "LOR"), ("ERISE", "ERIS"), ("EDECAY", "EDEC"),
   ("HAVERSINE", "HAV")]

/-- `AH2500A` `mode` mapping. -/
def ah2500a_mode : List (String × String) :=
  [("single", "SINGLE"), ("cont", "CONTINUOUS")]

/-- `LI5660` `output_config` mapping. -/
def li5660_output_config : List (String × ℕ) :=
  [("R,T", 6), ("X,Y", 24), ("R,T,X,Y", 30)]

/-- C7: every enum `val_mapping` dictionary declared by a driver in the
repository round-trips — for every symbol in its declared domain,
decoding the encoded wire token yields the original symbol (each mapping
is injective, so the inverted dictionary loses nothing). -/
theorem val_mapping_round_trip :
    vmRoundTrips sg384_noise_mode = true ∧
    vmRoundTrips sg384_enable_RF = true ∧
    vmRoundTrips sg384_enable_LF = true ∧
    vmRoundTrips sg384_modulation_coupling = true ∧
    vmRoundTrips sg384_modulation_function = true ∧
    vmRoundTrips sg384_enable_modulation = true ∧
    vmRoundTrips sg384_modulation_type = true ∧
    vmRoundTrips afg_type_mapping = true ∧
    vmRoundTrips ah2500a_mode = true ∧
    vmRoundTrips li5660_output_config = true := by
  refine ⟨?_, ?_, ?_, ?_, ?_, ?_, ?_, ?_, ?_, ?_⟩ <;> decide

/-! ## Channel construction (`AFGChannel.__init__`, `StahlChannel.__init__`) -/

/-- Error raised when a channel is constructed with a bad index. -/
inductive ChannelErr where
  | invalidChannel
  deriving Repr, DecidableEq

/-- `AFGChannel.__init__`: after attaching to the parent it checks
`channel not in list(range(1, num_channels + 1))` and raises `ValueError`
*before* any `add_parameter` call; on a valid index it registers the seven
channel parameters, in source order. -/
def afg_channel_init (num_channels channel : ℤ) :
    Except ChannelErr (List String) :=
  if 1 ≤ channel ∧ channel ≤ num_channels then
    Except.ok ["state", "amplitude", "offset", "type", "pulse_period",
               "pulse_width", "cw_freq"]
  else
    Except.error ChannelErr.invalidChannel

/-- `StahlChannel.__init__`: performs no validation of `channel_number`
against the parent's channel count (it never reads `parent.n_channels`);
it unconditionally registers its two parameters. -/
def stahl_channel_init (channel_count channel_number : ℤ) :
    Except ChannelErr (List String) :=
  Except.ok ["voltage", "current"]

/-- C9 counterexample: a Stahl channel constructed with index 0 — outside
`[1, channel_count]` for a parent reporting 8 channels — does not raise;
it returns normally with both parameters registered, so the claim that
every channel class validates its index at construction is false. -/
theorem stahl_channel_init_accepts_bad_index :
    stahl_channel_init 8 0 = Except.ok ["voltage", "current"] ∧
    ¬ (1 ≤ (0 : ℤ) ∧ (0 : ℤ) ≤ 8) := by
  exact ⟨rfl, by decide⟩

/-- C9 (amended): `AFGChannel` raises the invalid-channel error, with no
parameter registered, for every index outside `[1, num_channels]`; the
Stahl channel class performs no such validation and always registers its
parameters. -/
theorem afg_channel_init_validates_index :
    (∀ n ch : ℤ, ¬ (1 ≤ ch ∧ ch ≤ n) →
      afg_channel_init n ch = Except.error ChannelErr.invalidChannel) ∧
    (∀ m k : ℤ, stahl_channel_init m k = Except.ok ["voltage", "current"]) := by
  constructor
  · intro n ch h
    rw [afg_channel_init, if_neg h]
  · intro m k
    rfl

/-- Witness for the amended C9: channel index 3 on a 2-channel AFG31000
is rejected. -/
theorem afg_channel_init_validates_index_witness :
    afg_channel_init 2 3 = Except.error ChannelErr.invalidChannel :=
  (afg_channel_init_validates_index).1 2 3 (by decide)

/-! ## BlueFors log-sampled parameters (`src/drivers/BlueFors/BlueFors.py`)

The day's log file is modelled as either missing, inaccessible, or a list
of rows that `pandas.read_csv` would parse.  `read_csv` raises
`FileNotFoundError` (an `OSError`) for a missing file, `PermissionError`
for an inaccessible one, and `pandas.errors.EmptyDataError` — a subclass
of `ValueError`, not of `OSError` — for a file with no parsable rows
("No columns to parse from file"). -/

/-- Python exceptions relevant to the BlueFors getters. -/
inductive PyErr where
  | osError
  | permissionError
  | indexError
  | emptyDataError
  | keyError (label : String)
  deriving Repr, DecidableEq

/-- The state of the day's log file, with rows in file order. -/
inductive LogFile (ρ : Type) where
  | missing
  | inaccessible
  | rows (rs : List ρ)

/-- `pandas.read_csv` on the log file. -/
def read_csv {ρ : Type} : LogFile ρ → Except PyErr (List ρ)
  | LogFile.missing => Except.error PyErr.osError
  | LogFile.inaccessible => Except.error PyErr.permissionError
  | LogFile.rows [] => Except.error PyErr.emptyDataError
  | LogFile.rows rs => Except.ok rs

/-- The `except (PermissionError, OSError)` and `except IndexError`
handlers shared by `get_temperature` and `get_pressure`: both log a
warning and return `np.nan` (modelled as `none`, paired with the
warned flag); any other exception propagates. -/
def bluefors_catch (r : Except PyErr (Option ℚ × Bool)) :
    Except PyErr (Option ℚ × Bool) :=
  match r with
  | Except.error PyErr.osError => Except.ok (none, true)
  | Except.error PyErr.permissionError => Except.ok (none, true)
  | Except.error PyErr.indexError => Except.ok (none, true)
  | other => other

/-- `BlueFors.get_temperature`: read the day's `CH<n> T <day>.log` as a
3-column table, take the last row and return its `y` value.  A temperature
row is modelled by its already-parsed `y` value. -/
def get_temperature (file : LogFile ℚ) : Except PyErr (Option ℚ × Bool) :=
  bluefors_catch
    (match read_csv file with
     | Except.error e => Except.error e
     | Except.ok rs =>
       match rs.getLast? with
       | none => Except.error PyErr.indexError
       | some y => Except.ok (some y, false))

/-- The 39 column names `get_pressure` passes to `read_csv`. -/
def pressureColumns : List String :=
  ["date", "time",
   "ch1_name", "ch1_void1", "ch1_status", "ch1_pressure", "ch1_void2", "ch1_void3",
   "ch2_name", "ch2_void1", "ch2_status", "ch2_pressure", "ch2_void2", "ch2_void3",
   "ch3_name", "ch3_void1", "ch3_status", "ch3_pressure", "ch3_void2", "ch3_void3",
   "ch4_name", "ch4_void1", "ch4_status", "ch4_pressure", "ch4_void2", "ch4_void3",
   "ch5_name", "ch5_void1", "ch5_status", "ch5_pressure", "ch5_void2", "ch5_void3",
   "ch6_name", "ch6_void1", "ch6_status", "ch6_pressure", "ch6_void2", "ch6_void3",
   "void"]

/-- Decimal digits of a natural number, least significant first, computed
with explicit fuel (`n` itself bounds the number of divisions). -/
def pyDigitsAux : ℕ → ℕ → List ℕ
  | 0, _ => []
  | fuel + 1, n => if n = 0 then [] else n % 10 :: pyDigitsAux fuel (n / 10)

/-- Decimal digits of a natural number, least significant first. -/
def pyDigits (n : ℕ) : List ℕ := pyDigitsAux n n

/-- Python's `str` on a non-negative `int`. -/
def pyStrNat (n : ℕ) : String :=
  if n = 0 then "0"
  else String.mk ((pyDigits n).reverse.map (fun d => Char.ofNat (48 + d)))

/-- A pressure row, as the map from column position to parsed cell value. -/
def PressureRow : Type := ℕ → ℚ

/-- `BlueFors.get_pressure(channel)`: read the day's `maxigauge` log with
the 39 named columns, take the last row and select column
`'ch' + str(channel) + '_pressure'`; a label that is not among the column
names makes pandas raise `KeyError`, which is not among the caught
exception classes. -/
def get_pressure (channel : ℕ) (file : LogFile PressureRow) :
    Except PyErr (Option ℚ × Bool) :=
  bluefors_catch
    (match read_csv file with
     | Except.error e => Except.error e
     | Except.ok rs =>
       match rs.getLast? with
       | none => Except.error PyErr.indexError
       | some row =>
         let label := "ch" ++ pyStrNat channel ++ "_pressure"
         if label ∈ pressureColumns then
           Except.ok (some (row (pressureColumns.indexOf label)), false)
         else
           Except.error (PyErr.keyError label))

/-- C2: the claim asserts a missing/inaccessible file *and* a file with no
parsable rows all yield the not-a-number sentinel plus a warning, never an
exception, for both log-sampled getters.  The embedded getters do return
the sentinel for a missing or inaccessible file, but on a file with no
parsable rows `read_csv` raises `EmptyDataError`, which is neither an
`OSError` nor an `IndexError`, so it escapes the two handlers and the call
raises (third and sixth conjuncts). -/
theorem bluefors_empty_log_raises :
    get_temperature (LogFile.missing) = Except.ok (none, true) ∧
    get_temperature (LogFile.inaccessible) = Except.ok (none, true) ∧
    get_temperature (LogFile.rows []) = Except.error PyErr.emptyDataError ∧
    get_pressure 3 (LogFile.missing) = Except.ok (none, true) ∧
    get_pressure 3 (LogFile.inaccessible) = Except.ok (none, true) ∧
    get_pressure 3 (LogFile.rows []) = Except.error PyErr.emptyDataError :=
  ⟨rfl, rfl, rfl, rfl, rfl, rfl⟩

/-- `pyDigitsAux` yields at least one digit for a positive number within
fuel. -/
lemma pyDigitsAux_one_le (fuel : ℕ) :
    ∀ n : ℕ, 1 ≤ n → n ≤ fuel → 1 ≤ (pyDigitsAux fuel n).length := by
  induction fuel with
  | zero => intro n h1 h2; omega
  | succ f ih =>
    intro n h1 _
    rw [pyDigitsAux, if_neg (by omega : ¬ n = 0)]
    simp

/-- `pyDigitsAux` yields at least two digits for a number of at least 10
within fuel. -/
lemma pyDigitsAux_two_le (fuel : ℕ) :
    ∀ n : ℕ, 10 ≤ n → n ≤ fuel → 2 ≤ (pyDigitsAux fuel n).length := by
  induction fuel with
  | zero => intro n h1 h2; omega
  | succ f ih =>
    intro n h1 h2
    rw [pyDigitsAux, if_neg (by omega : ¬ n = 0)]
    have hdiv : n / 10 < n := Nat.div_lt_self (by omega) (by omega)
    have h10 : 1 ≤ n / 10 := (Nat.one_le_div_iff (by omega)).mpr (by omega)
    have := pyDigitsAux_one_le f (n / 10) h10 (by omega)
    simp only [List.length_cons]
    omega

/-- The decimal rendering of a number of at least 10 is at least two
characters long. -/
lemma pyStrNat_two_le (n : ℕ) (h : 10 ≤ n) : 2 ≤ (pyStrNat n).length := by
  rw [pyStrNat, if_neg (by omega : ¬ n = 0)]
  show 2 ≤ (List.map _ (pyDigits n).reverse).length
  rw [List.length_map, List.length_reverse]
  exact pyDigitsAux_two_le n n h (le_refl n)

/-- For a channel number outside `1..6`, the pressure column label built by
`get_pressure` is not among the declared column names. -/
lemma pressure_label_not_mem (channel : ℕ)
    (h : ¬ (1 ≤ channel ∧ channel ≤ 6)) :
    ("ch" ++ pyStrNat channel ++ "_pressure") ∉ pressureColumns := by
  by_cases hch : channel < 10
  · interval_cases channel <;> first
      | exact absurd ⟨by omega, by omega⟩ h
      | decide
  · intro hmem
    have hbound : ∀ s ∈ pressureColumns, s.length ≤ 12 := by decide
    have hle := hbound _ hmem
    have hlen : ("ch" ++ pyStrNat channel ++ "_pressure").length
        = 2 + (pyStrNat channel).length + 9 := by
      show (("ch" ++ pyStrNat channel ++ "_pressure").data).length = _
      show (("ch").data ++ (pyStrNat channel).data ++ ("_pressure").data).length = _
      simp [List.length_append]
      omega
    have h2 := pyStrNat_two_le channel (by omega)
    omega

/-- C10: for every channel number outside `1..6`, once the day's pressure
log exists and parses into at least one row, the column label
`ch<n>_pressure` is missing from the declared columns and the last-row
lookup raises `KeyError` — which is not among the caught exception
classes, so the call propagates the error instead of returning the
not-a-number sentinel. -/
theorem bluefors_pressure_unknown_channel_raises (channel : ℕ)
    (row : PressureRow) (rs : List PressureRow)
    (h : ¬ (1 ≤ channel ∧ channel ≤ 6)) :
    get_pressure channel (LogFile.rows (row :: rs))
      = Except.error (PyErr.keyError ("ch" ++ pyStrNat channel ++ "_pressure")) := by
  have hlast : (row :: rs).getLast? = some ((row :: rs).getLast (by simp)) :=
    List.getLast?_eq_getLast_of_ne_nil _
  have h1 : get_pressure channel (LogFile.rows (row :: rs))
      = bluefors_catch
        (match (row :: rs).getLast? with
         | none => Except.error PyErr.indexError
         | some row' =>
           let label := "ch" ++ pyStrNat channel ++ "_pressure"
           if label ∈ pressureColumns then
             Except.ok (some (row' (pressureColumns.indexOf label)), false)
           else
             Except.error (PyErr.keyError label)) := rfl
  rw [h1, hlast]
  show bluefors_catch
      (if ("ch" ++ pyStrNat channel ++ "_pressure") ∈ pressureColumns then
         Except.ok
           (some ((row :: rs).getLast (by simp)
             (pressureColumns.indexOf ("ch" ++ pyStrNat channel ++ "_pressure"))),
            false)
       else
         Except.error (PyErr.keyError ("ch" ++ pyStrNat channel ++ "_pressure")))
      = _
  rw [if_neg (pressure_label_not_mem channel h)]
  rfl

/-- Witness for C10: channel 7 with a one-row log raises `KeyError` on the
`ch7_pressure` label. -/
theorem bluefors_pressure_unknown_channel_raises_witness :
    get_pressure 7 (LogFile.rows [fun _ => 0])
      = Except.error (PyErr.keyError ("ch" ++ pyStrNat 7 ++ "_pressure")) :=
  bluefors_pressure_unknown_channel_raises 7 (fun _ => 0) [] (by decide)

/-! ## Stahl identity parsing (`HV324.parse_idn_string`)

`re.search(r"(HV|BS)(\d{3}) (\d{3}) (\d{2}) ([buqsm])", idn_string)` is
embedded as a scan for the leftmost position at which the fixed-width
pattern matches (every field of the pattern has fixed width, so matching
at a position is deterministic, and `re.search` returns the leftmost
match).  `\d` is modelled as the ASCII digits, matching the grammar of the
device's replies. -/

/-- The variant-code character class `[buqsm]`. -/
def isVariant (c : Char) : Bool :=
  c == 'b' || c == 'u' || c == 'q' || c == 's' || c == 'm'

/-- The five capture groups of the identity pattern. -/
structure IdnGroups where
  pfx : List Char
  ser : List Char
  rng : List Char
  nch : List Char
  var : Char
  deriving Repr, DecidableEq

/-- Match the identity pattern anchored at the head of the character list:
a model prefix `HV` or `BS`, three digits, a space, three digits, a space,
two digits, a space, and one variant character. -/
def matchIdnHere : List Char → Option IdnGroups
  | p1 :: p2 :: s1 :: s2 :: s3 :: sp1 :: r1 :: r2 :: r3 :: sp2 ::
      n1 :: n2 :: sp3 :: v :: _ =>
    if (p1 == 'H' && p2 == 'V' || p1 == 'B' && p2 == 'S')
        && s1.isDigit && s2.isDigit && s3.isDigit && sp1 == ' '
        && r1.isDigit && r2.isDigit && r3.isDigit && sp2 == ' '
        && n1.isDigit && n2.isDigit && sp3 == ' '
        && isVariant v then
      some ⟨[p1, p2], [s1, s2, s3], [r1, r2, r3], [n1, n2], v⟩
    else
      none
  | _ => none

/-- `re.search`: the leftmost match of the identity pattern. -/
def searchIdn : List Char → Option IdnGroups
  | [] => none
  | c :: cs =>
    match matchIdnHere (c :: cs) with
    | some g => some g
    | none => searchIdn cs

/-- Numeric value of an ASCII digit character. -/
def digitVal (c : Char) : ℕ := c.toNat - 48

/-- Python `int`/`float` on a matched digit group. -/
def natOfDigits (ds : List Char) : ℕ :=
  ds.foldl (fun a c => 10 * a + digitVal c) 0

/-- The enumerated variant lookup
`{"b": "bipolar", "u": "unipolar", "q": "quadrupole", "s": "steerer",
"m": "bipolar milivolt"}.get`. -/
def variantAssoc : List (Char × String) :=
  [('b', "bipolar"), ('u', "unipolar"), ('q', "quadrupole"),
   ('s', "steerer"), ('m', "bipolar milivolt")]

/-- The parsed device-identity fields, in the order the source's converter
dictionary produces them. -/
structure IdnInfo where
  model : String
  serial_number : String
  voltage_range : ℚ
  n_channels : ℕ
  output_type : Option String
  deriving Repr, DecidableEq

/-- `HV324.parse_idn_string`: apply the search and convert the five groups
(`str`, `str`, `float`, `int`, variant-dictionary `.get`); no match means
the fatal unrecognized-device `RuntimeError`, modelled as `none`. -/
def parse_idn_string (idn : List Char) : Option IdnInfo :=
  match searchIdn idn with
  | none => none
  | some g =>
    some { model := String.mk g.pfx,
           serial_number := String.mk g.ser,
           voltage_range := (natOfDigits g.rng : ℚ),
           n_channels := natOfDigits g.nch,
           output_type := variantAssoc.lookup g.var }

/-- A well-formed identity reply in the fixed grammar. -/
def buildIdn (isHV : Bool) (s1 s2 s3 r1 r2 r3 n1 n2 v : Char) : List Char :=
  (if isHV then ['H', 'V'] else ['B', 'S'])
    ++ [s1, s2, s3, ' ', r1, r2, r3, ' ', n1, n2, ' ', v]

/-- The same reply with the trailing variant code (and its separating
space) missing. -/
def buildIdnNoVariant (isHV : Bool) (s1 s2 s3 r1 r2 r3 n1 n2 : Char) :
    List Char :=
  (if isHV then ['H', 'V'] else ['B', 'S'])
    ++ [s1, s2, s3, ' ', r1, r2, r3, ' ', n1, n2]

/-- Independent spelling of the variant lookup used to state the expected
parse result. -/
def variantName (c : Char) : String :=
  if c = 'b' then "bipolar"
  else if c = 'u' then "unipolar"
  else if c = 'q' then "quadrupole"
  else if c = 's' then "steerer"
  else "bipolar milivolt"

/-- C6: every identity reply built from a model prefix in `{HV, BS}`,
three serial digits, three range digits, two channel-count digits and a
variant in `[buqsm]` parses back to exactly the corresponding
`(model, serial_number, voltage_range, n_channels, output_type)` fields,
with the variant mapped through the enumerated lookup; the same reply
missing the variant code does not match the pattern, so parsing it raises
the fatal unrecognized-device error. -/
theorem hv324_parse_idn_round_trip (isHV : Bool)
    (s1 s2 s3 r1 r2 r3 n1 n2 v : Char)
    (hs1 : s1.isDigit = true) (hs2 : s2.isDigit = true)
    (hs3 : s3.isDigit = true)
    (hr1 : r1.isDigit = true) (hr2 : r2.isDigit = true)
    (hr3 : r3.isDigit = true)
    (hn1 : n1.isDigit = true) (hn2 : n2.isDigit = true)
    (hv : isVariant v = true) :
    parse_idn_string (buildIdn isHV s1 s2 s3 r1 r2 r3 n1 n2 v)
      = some { model := if isHV then "HV" else "BS",
               serial_number := String.mk [s1, s2, s3],
               voltage_range :=
                 ((100 * digitVal r1 + 10 * digitVal r2 + digitVal r3 : ℕ) : ℚ),
               n_channels := 10 * digitVal n1 + digitVal n2,
               output_type := some (variantName v) } ∧
    parse_idn_string (buildIdnNoVariant isHV s1 s2 s3 r1 r2 r3 n1 n2) = none := by
  have hvar : variantAssoc.lookup v = some (variantName v) := by
    have hv5 : (((v = 'b' ∨ v = 'u') ∨ v = 'q') ∨ v = 's') ∨ v = 'm' := by
      simpa [isVariant] using hv
    rcases hv5 with (((h5 | h5) | h5) | h5) | h5 <;> subst h5 <;> rfl
  constructor
  · cases isHV <;>
      simp [buildIdn, parse_idn_string, searchIdn, matchIdnHere,
            hs1, hs2, hs3, hr1, hr2, hr3, hn1, hn2, hv, hvar,
            natOfDigits, List.foldl] <;>
      ring
  · cases isHV <;> rfl

/-- Witness for C6 at the reply "HV324 500 16 b": parses to model `HV`,
serial `324`, range 500, 16 channels, a bipolar output. -/
theorem hv324_parse_idn_round_trip_witness :
    parse_idn_string (buildIdn true '3' '2' '4' '5' '0' '0' '1' '6' 'b')
      = some { model := "HV",
               serial_number := String.mk ['3', '2', '4'],
               voltage_range :=
                 ((100 * digitVal '5' + 10 * digitVal '0' + digitVal '0' : ℕ) : ℚ),
               n_channels := 10 * digitVal '1' + digitVal '6',
               output_type := some (variantName 'b') } ∧
    parse_idn_string (buildIdnNoVariant true '3' '2' '4' '5' '0' '0' '1' '6')
      = none :=
  hv324_parse_idn_round_trip true '3' '2' '4' '5' '0' '0' '1' '6' 'b'
    rfl rfl rfl rfl rfl rfl rfl rfl rfl

end QduDrivers
